import Mathlib

/-!
Verification of the PDF form-field extraction pipeline
(`backend/core/form_processor/pdf_processor.py`) against its specification.

The Python module is embedded shallowly:

* The regex catalogs `field_patterns` and `form_type_patterns` are embedded
  as alternation lists over a small token language (`Tok`): literal
  characters (case-insensitive, as all patterns carry the `(?i)` flag),
  `\s*` gaps, and optional one-character classes such as `[\-\.]?`.
  Every pattern in the module has the shape
  `(?i)(ALT|...|ALT)[\s\:]*([^\n]*)` (field rules) or `(?i)(ALT|...|ALT)`
  (form-type rules).  In these patterns no `\s*` or optional class is ever
  followed by a literal the class could also consume, so deterministic
  greedy matching coincides with the backtracking regex semantics, and the
  trailing `[\s\:]*([^\n]*)` always succeeds, so the group-1 alternation
  alone decides whether the whole pattern matches at a position.
* `re.finditer` is embedded as a left-to-right scan producing
  non-overlapping matches (`scanPat`); `re.search` as `searchAny`.
* Python dicts (which iterate in insertion order) become ordered
  association lists; floats 0.7 and 0.5 become the rationals 7/10 and 1/2.
* The field dicts built by `_identify_fields` / `_merge_fields` become the
  `MergedField` structure; the keys that only one of the two dict shapes
  carries (`value`, `dimensions`) are `Option`s, and `position` is either
  a text offset or an (x, y) pixel pair.
* OpenCV contour detection is abstracted by the `Contour` record
  (polygon-approximation vertex count plus bounding rectangle); the
  filtering logic of `_detect_field_boxes` is embedded exactly.
* The per-page control flow of `extract_fields` (including which
  exceptions are caught where) is embedded over `PageInput`, a record of
  the three external-stage outcomes for one page, with `Except` standing
  for Python exceptions.
-/

namespace FormHelper

/-- The ASCII characters matched by the regex class `\s`. -/
def wsChars : List Char := [' ', '\t', '\n', '\r', Char.ofNat 11, Char.ofNat 12]

def isWS (c : Char) : Bool := wsChars.contains c

/-- One token of the embedded regex language: a case-insensitive literal
character, a `\s*` gap, or an optional one-character class `[...]?`. -/
inductive Tok where
  | lit (c : Char)
  | wsStar
  | optC (cs : List Char)
deriving DecidableEq, Repr

/-- Greedy matcher for one alternative at the head of `s`; returns the
number of characters consumed.  Literals compare against the lowercased
input character, embedding the `(?i)` flag.  For the pattern catalog of
this module greedy matching equals full regex matching (see the header). -/
def matchToks : List Tok → List Char → Option Nat
  | [], _ => some 0
  | Tok.lit _ :: _, [] => none
  | Tok.lit c :: ts, x :: s =>
    if x.toLower == c then (matchToks ts s).map (· + 1) else none
  | Tok.optC _ :: ts, [] => matchToks ts []
  | Tok.optC cs :: ts, x :: s =>
    if cs.contains x.toLower then (matchToks ts s).map (· + 1)
    else matchToks ts (x :: s)
  | Tok.wsStar :: ts, s =>
    let k := (s.takeWhile isWS).length
    (matchToks ts (s.drop k)).map (· + k)

/-- First alternative (in pattern order) matching at the head of `s`,
mirroring the ordered alternation `(A1|A2|...)` of the regex group 1. -/
def firstAlt : List (List Tok) → List Char → Option Nat
  | [], _ => none
  | a :: as, s =>
    match matchToks a s with
    | some g => some g
    | none => firstAlt as s

/-- A word as a sequence of literal tokens. -/
def lits (s : String) : List Tok := s.data.map Tok.lit

/-- Two words separated by `\s*`. -/
def wsGap (a b : String) : List Tok := lits a ++ [Tok.wsStar] ++ lits b

/-- The character class `[\-\s]`. -/
def dashWS : List Char := '-' :: wsChars

/-- One `re.finditer` match of a field pattern
`(?i)(label alternation)[\s\:]*([^\n]*)`: start offset, length of the
label group, length of the `[\s\:]*` separator run, length of the value
group (the rest of the line). -/
structure RawMatch where
  start : Nat
  labelLen : Nat
  sepLen : Nat
  valLen : Nat
deriving DecidableEq, Repr

/-- Left-to-right non-overlapping scan (`re.finditer`).  After a match the
scan resumes at the match end.  `fuel` only bounds the recursion; it is
instantiated with a value large enough (`s.length + 1`) that it never
runs out, keeping the definition structurally recursive. -/
def scanAux (alts : List (List Tok)) : Nat → List Char → Nat → List RawMatch
  | 0, _, _ => []
  | _ + 1, [], _ => []
  | fuel + 1, c :: rest, i =>
    match firstAlt alts (c :: rest) with
    | none => scanAux alts fuel rest (i + 1)
    | some g =>
      let tl := (c :: rest).drop g
      let sep := (tl.takeWhile (fun x => isWS x || x == ':')).length
      let v := ((tl.drop sep).takeWhile (fun x => x != '\n')).length
      ⟨i, g, sep, v⟩ :: scanAux alts fuel (rest.drop (g + sep + v - 1)) (i + g + sep + v)

def scanPat (alts : List (List Tok)) (s : List Char) : List RawMatch :=
  scanAux alts (s.length + 1) s 0

/-- `re.search` over a whole string: does any alternative match at any
position (including the end-of-string position)? -/
def searchAny (alts : List (List Tok)) (s : List Char) : Bool :=
  s.tails.any (fun t => alts.any (fun a => (matchToks a t).isSome))

/-- `str.strip()`: remove leading and trailing whitespace. -/
def strip (s : List Char) : List Char :=
  ((s.dropWhile isWS).reverse.dropWhile isWS).reverse

/-- `sub in s` for Python: substring containment. -/
def hasSub (s pat : List Char) : Bool :=
  s.tails.any (fun t => pat.isPrefixOf t)

/-- `c.lower()` character-wise (ASCII, as all pattern text is ASCII). -/
def lowerL (s : List Char) : List Char := s.map Char.toLower

/-- `str.lower()` on strings. -/
def lowerStr (s : String) : String := String.mk (lowerL s.data)

/-! ## The pattern catalogs (`field_patterns`, `form_type_patterns`) -/

/-- `self.field_patterns`, in dict insertion order.  Each entry is the
group-1 alternation of `(?i)(...)[\s\:]*([^\n]*)`. -/
def field_patterns : List (String × List (List Tok)) :=
  [("name", [wsGap "full" "name", wsGap "first" "name", wsGap "last" "name",
             wsGap "middle" "name", lits "name"]),
   ("email", [lits "e" ++ [Tok.optC ['-', '.']] ++ lits "mail" ++ [Tok.wsStar] ++ lits "address",
              lits "e" ++ [Tok.optC ['-', '.']] ++ lits "mail"]),
   ("phone", [lits "phone", lits "telephone", lits "mobile", lits "cell", lits "contact"]),
   ("address", [wsGap "street" "address", wsGap "mailing" "address", lits "address",
                lits "city", lits "state", lits "zip", wsGap "postal" "code"]),
   ("date", [lits "date", wsGap "birth" "date", lits "dob", lits "expiration",
             wsGap "start" "date", wsGap "end" "date"]),
   ("ssn", [lits "ssn", wsGap "social" "security", wsGap "tax" "id", lits "itin"]),
   ("id", [wsGap "id" "number", lits "identification", lits "passport",
           lits "driver" ++ [Tok.optC [Char.ofNat 39]] ++ lits "s" ++ [Tok.wsStar] ++ lits "license"]),
   ("gender", [lits "gender", lits "sex"]),
   ("nationality", [lits "nationality", lits "citizenship", lits "country"]),
   ("occupation", [lits "occupation", wsGap "job" "title", lits "profession"]),
   ("income", [lits "income", lits "salary", lits "earnings", lits "wages"]),
   ("education", [lits "education", lits "degree", lits "qualification"]),
   ("signature", [lits "signature", wsGap "sign" "here"])]

def taxAlts : List (List Tok) :=
  [lits "irs", wsGap "tax" "return", wsGap "tax" "form",
   lits "w" ++ [Tok.optC dashWS] ++ lits "9", lits "w" ++ [Tok.optC dashWS] ++ lits "2",
   lits "1040", lits "1099"]

def medicalAlts : List (List Tok) :=
  [wsGap "health" "insurance", lits "patient", wsGap "medical" "history",
   lits "diagnosis", lits "prescription"]

def employmentAlts : List (List Tok) :=
  [lits "employment", wsGap "job" "application", wsGap "work" "history",
   lits "resume", lits "cv"]

def bankingAlts : List (List Tok) :=
  [wsGap "bank" "account", wsGap "direct" "deposit", wsGap "routing" "number",
   wsGap "account" "number"]

def immigrationAlts : List (List Tok) :=
  [lits "uscis", lits "visa", lits "passport",
   lits "i" ++ [Tok.optC dashWS] ++ lits "94",
   lits "i" ++ [Tok.optC dashWS] ++ lits "551", wsGap "green" "card"]

def consentAlts : List (List Tok) :=
  [wsGap "consent" "form", wsGap "release" "form", lits "authorization", lits "permission"]

def applicationAlts : List (List Tok) :=
  [lits "application", lits "apply", lits "form", lits "request"]

/-! ## Data model -/

/-- `position` value of a field dict: a text offset (text-derived fields)
or an `(x, y)` pixel pair (visually detected fields). -/
inductive FieldPos where
  | offset (n : Nat)
  | coord (x y : Nat)
deriving DecidableEq, Repr

/-- One field dict as built by `_identify_fields` (with `value` present and
`dimensions` absent) or `_merge_fields` (the other way round). -/
structure MergedField where
  name : String
  label : String
  type : String
  value : Option String
  page : Nat
  position : FieldPos
  dimensions : Option (Nat × Nat)
  required : Bool
  confidence : Rat
deriving DecidableEq, Repr

/-- The `field_type_map` dict of `_guess_field_type`. -/
def field_type_map : List (String × String) :=
  [("email", "email"), ("phone", "tel"), ("date", "date"), ("password", "password"),
   ("address", "text"), ("ssn", "text"), ("name", "text"), ("id", "text"),
   ("gender", "select"), ("nationality", "text"), ("occupation", "text"),
   ("income", "number"), ("education", "text"), ("signature", "text")]

/-- `_guess_field_type`: look the lowercased rule name up in the map,
defaulting to "text". -/
def _guess_field_type (field_name : String) : String :=
  (List.lookup (lowerStr field_name) field_type_map).getD "text"

/-- Build the field dict `_identify_fields` appends for one regex match. -/
def mkTextField (fname : String) (pageIdx : Nat) (block : List Char) (m : RawMatch) :
    MergedField :=
  let rawLabel := strip ((block.drop m.start).take m.labelLen)
  let rawValue := strip ((block.drop (m.start + m.labelLen + m.sepLen)).take m.valLen)
  { name := fname
    label := String.mk rawLabel
    type := _guess_field_type fname
    value := some (String.mk rawValue)
    page := pageIdx + 1
    position := FieldPos.offset m.start
    dimensions := none
    required := rawLabel.contains '*' || hasSub (lowerL rawLabel) (String.data "required")
    confidence := 7 / 10 }

/-- `_identify_fields`: for every page block (in order), for every pattern
(in catalog order), for every non-overlapping match (in text order),
one field dict. -/
def _identify_fields (text_blocks : List String) : List MergedField :=
  text_blocks.enum.flatMap (fun pb =>
    field_patterns.flatMap (fun fp =>
      (scanPat fp.2 pb.2.data).map (mkTextField fp.1 pb.1 pb.2.data)))

/-- The field dict `_merge_fields` appends for an unmatched visual box. -/
def unlabeledField (pageIdx x y w h : Nat) : MergedField :=
  { name := "field_" ++ toString pageIdx ++ "_" ++ toString x ++ "_" ++ toString y
    label := "Unlabeled Field (" ++ toString (pageIdx + 1) ++ ")"
    type := "text"
    value := none
    page := pageIdx + 1
    position := FieldPos.coord x y
    dimensions := some (w, h)
    required := false
    confidence := 1 / 2 }

/-- `_merge_fields`: start from the text fields; append a visually detected
box as a new field unless some text field sits on the same page (the code
checks only `field.get("page") == page_idx + 1`, nothing positional). -/
def _merge_fields (text_fields : List MergedField)
    (field_boxes : List (Nat × Nat × Nat × Nat × Nat)) : List MergedField :=
  text_fields ++ field_boxes.filterMap (fun b =>
    if text_fields.any (fun f => f.page == b.1 + 1) then none
    else some (unlabeledField b.1 b.2.1 b.2.2.1 b.2.2.2.1 b.2.2.2.2))

/-- One detected contour, abstracted to what `_detect_field_boxes` reads
from OpenCV: the vertex count of its polygon approximation and its
bounding rectangle. -/
structure Contour where
  approxVertices : Nat
  x : Nat
  y : Nat
  w : Nat
  h : Nat
deriving DecidableEq, Repr

/-- The filtering body of `_detect_field_boxes`: keep a contour's bounding
rectangle iff the approximation has exactly 4 vertices,
`50 < w < 500`, `15 < h < 80`, and `w > h`. -/
def _detect_field_boxes (contours : List Contour) : List (Nat × Nat × Nat × Nat) :=
  contours.filterMap (fun c =>
    if c.approxVertices = 4 ∧ 50 < c.w ∧ c.w < 500 ∧ 15 < c.h ∧ c.h < 80 ∧ c.h < c.w
    then some (c.x, c.y, c.w, c.h) else none)

/-- `_detect_form_type`: lowercase the text, test the categories in dict
insertion order, return the first that matches, else "generic_form". -/
def _detect_form_type (text : String) : String :=
  let t := lowerL text.data
  if searchAny taxAlts t then "tax"
  else if searchAny medicalAlts t then "medical"
  else if searchAny employmentAlts t then "employment"
  else if searchAny bankingAlts t then "banking"
  else if searchAny immigrationAlts t then "immigration"
  else if searchAny consentAlts t then "consent"
  else if searchAny applicationAlts t then "application"
  else "generic_form"

/-! ## The per-page pipeline of `extract_fields` -/

/-- External-stage outcomes for one page: `_enhance_image` (preprocessing),
`pytesseract.image_to_string` (OCR), and the OpenCV contour extraction
inside `_detect_field_boxes`.  `Except.error` stands for a raised
exception. -/
structure PageInput where
  enhance : Except String Unit
  ocr : Except String String
  contours : Except String (List Contour)

def exIsOk {ε α : Type} : Except ε α → Bool
  | Except.ok _ => true
  | Except.error _ => false

/-- `_detect_field_boxes` including its own `try/except`: any exception in
contour detection makes the page contribute an empty box list. -/
def pageBoxes (p : PageInput) : List (Nat × Nat × Nat × Nat) :=
  match p.contours with
  | Except.error _ => []
  | Except.ok cs => _detect_field_boxes cs

/-- The page loop of `extract_fields`: collect per-page OCR text and
`(page_idx, box)` pairs; an exception raised by preprocessing or OCR
propagates (there is no per-page handler around those calls). -/
def collectPages : Nat → List PageInput → Except String (List String × List (Nat × Nat × Nat × Nat × Nat))
  | _, [] => Except.ok ([], [])
  | i, p :: ps =>
    match p.enhance with
    | Except.error e => Except.error e
    | Except.ok _ =>
      match p.ocr with
      | Except.error e => Except.error e
      | Except.ok t =>
        match collectPages (i + 1) ps with
        | Except.error e => Except.error e
        | Except.ok (ts, bs) =>
          Except.ok (t :: ts, (pageBoxes p).map (fun b => (i, b.1, b.2.1, b.2.2.1, b.2.2.2)) ++ bs)

/-- The result dict of `extract_fields`. -/
structure ExtractionResult where
  form_type : String
  fields : List MergedField
  page_count : Nat
  text_content : List String
  confidence : Rat
deriving DecidableEq, Repr

/-- `extract_fields` over the rasterized pages: run the page loop, then
text analysis, merging, and form-type detection; any exception escaping
the loop is re-raised as a document-level error by the outer handler. -/
def extract_fields (pages : List PageInput) : Except String ExtractionResult :=
  match collectPages 0 pages with
  | Except.error e => Except.error ("PDF processing error: " ++ e)
  | Except.ok (ts, bs) =>
    Except.ok
      { form_type := _detect_form_type (String.intercalate "\n" ts)
        fields := _merge_fields (_identify_fields ts) bs
        page_count := pages.length
        text_content := ts
        confidence := 7 / 10 }

end FormHelper

namespace FormHelper

/-! ## Helper lemmas -/

/-- A pattern of plain literals matches wherever the corresponding word is
a prefix of the input, provided the pattern characters are their own
lowercase forms (true of every catalog word). -/
theorem matchToks_lits_isSome (w : List Char) :
    ∀ s : List Char, w.isPrefixOf s = true → (∀ c ∈ w, c.toLower = c) →
      (matchToks (w.map Tok.lit) s).isSome = true := by
  induction w with
  | nil => intro s _ _; simp [matchToks]
  | cons c w ih =>
    intro s hp hl
    cases s with
    | nil => simp [List.isPrefixOf] at hp
    | cons x s =>
      simp only [List.isPrefixOf, Bool.and_eq_true, beq_iff_eq] at hp
      obtain ⟨hcx, hws⟩ := hp
      have hx : x.toLower = c := by
        rw [← hcx]; exact hl c (List.mem_cons_self _ _)
      simp only [List.map_cons, matchToks, hx, beq_self_eq_true, if_true]
      have hrest := ih s hws (fun d hd => hl d (List.mem_cons_of_mem _ hd))
      cases hm : matchToks (w.map Tok.lit) s with
      | none => rw [hm] at hrest; simp at hrest
      | some n => simp [hm]

/-- `re.search` succeeds on any string containing one of the alternation's
plain words as a substring. -/
theorem searchAny_of_hasSub (alts : List (List Tok)) (w s : List Char)
    (hmem : w.map Tok.lit ∈ alts) (hl : ∀ c ∈ w, c.toLower = c)
    (hsub : hasSub s w = true) : searchAny alts s = true := by
  rw [hasSub, List.any_eq_true] at hsub
  obtain ⟨t, ht, hpre⟩ := hsub
  rw [searchAny, List.any_eq_true]
  refine ⟨t, ht, ?_⟩
  rw [List.any_eq_true]
  exact ⟨w.map Tok.lit, hmem, matchToks_lits_isSome w t hpre hl⟩

end FormHelper

namespace FormHelper

/-! ## Claim theorems -/

/-- Claim C9: the Field Type Guesser `_guess_field_type` is a pure total
function on rule names, mapping "email" to "email", "phone" to "tel",
"date" to "date", "income" to "number", "gender" to "select", and every
name whose lowercased form misses the lookup table to "text". -/
theorem guess_field_type_total :
    (_guess_field_type "email" = "email" ∧ _guess_field_type "phone" = "tel" ∧
     _guess_field_type "date" = "date" ∧ _guess_field_type "income" = "number" ∧
     _guess_field_type "gender" = "select") ∧
    ∀ s : String, List.lookup (lowerStr s) field_type_map = none →
      _guess_field_type s = "text" := by
  refine ⟨by decide, ?_⟩
  intro s h
  simp [_guess_field_type, h]

/-- Witness for C9: applies the theorem at the concrete unknown rule name
"nickname", which misses the lookup table. -/
theorem guess_field_type_total_witness : _guess_field_type "nickname" = "text" :=
  guess_field_type_total.2 "nickname" (by decide)

/-- Claim C8: `_detect_field_boxes` retains a contour's bounding rectangle
exactly when the polygon approximation has 4 vertices, `50 < w < 500`,
`15 < h < 80`, and `w > h`; in particular a 20 by 10 region yields zero
visual candidates (Scenario D). -/
theorem detect_field_boxes_filter :
    (∀ (cs : List Contour) (b : Nat × Nat × Nat × Nat),
      b ∈ _detect_field_boxes cs ↔
        ∃ c, c ∈ cs ∧ c.approxVertices = 4 ∧ 50 < c.w ∧ c.w < 500 ∧ 15 < c.h ∧
          c.h < 80 ∧ c.w > c.h ∧ b = (c.x, c.y, c.w, c.h)) ∧
    _detect_field_boxes [⟨4, 0, 0, 20, 10⟩] = [] := by
  constructor
  · intro cs b
    unfold _detect_field_boxes
    rw [List.mem_filterMap]
    constructor
    · rintro ⟨c, hc, hsome⟩
      by_cases hp : c.approxVertices = 4 ∧ 50 < c.w ∧ c.w < 500 ∧ 15 < c.h ∧
          c.h < 80 ∧ c.h < c.w
      · rw [if_pos hp] at hsome
        obtain ⟨h1, h2, h3, h4, h5, h6⟩ := hp
        exact ⟨c, hc, h1, h2, h3, h4, h5, h6, (Option.some_inj.mp hsome).symm⟩
      · rw [if_neg hp] at hsome
        simp at hsome
    · rintro ⟨c, hc, h1, h2, h3, h4, h5, h6, hb⟩
      exact ⟨c, hc, by rw [if_pos ⟨h1, h2, h3, h4, h5, h6⟩, hb]⟩
  · decide

/-- Witness for C8: applies the characterization to put one concrete
passing contour's rectangle in the output. -/
theorem detect_field_boxes_filter_witness :
    (10, 200, 120, 30) ∈ _detect_field_boxes [⟨4, 10, 200, 120, 30⟩] :=
  (detect_field_boxes_filter.1 [⟨4, 10, 200, 120, 30⟩] (10, 200, 120, 30)).mpr
    ⟨⟨4, 10, 200, 120, 30⟩, by decide, by decide, by decide, by decide, by decide,
      by decide, by decide, rfl⟩

/-- Claim C6: the Form-Type Classifier tests the categories in the fixed
order tax, medical, employment, banking, immigration, consent,
application over the lowercased document text and returns the first whose
alternation matches, falling back to "generic_form" when none does; in
particular a text matching the banking patterns but none of the tax,
medical or employment patterns classifies as "banking" regardless of the
lower-priority categories. -/
theorem detect_form_type_priority (t : String) :
    ((searchAny bankingAlts (lowerL t.data) = true ∧
      searchAny taxAlts (lowerL t.data) = false ∧
      searchAny medicalAlts (lowerL t.data) = false ∧
      searchAny employmentAlts (lowerL t.data) = false) →
      _detect_form_type t = "banking") ∧
    ((searchAny taxAlts (lowerL t.data) = false ∧
      searchAny medicalAlts (lowerL t.data) = false ∧
      searchAny employmentAlts (lowerL t.data) = false ∧
      searchAny bankingAlts (lowerL t.data) = false ∧
      searchAny immigrationAlts (lowerL t.data) = false ∧
      searchAny consentAlts (lowerL t.data) = false ∧
      searchAny applicationAlts (lowerL t.data) = false) →
      _detect_form_type t = "generic_form") := by
  constructor
  · rintro ⟨hb, h1, h2, h3⟩
    simp [_detect_form_type, h1, h2, h3, hb]
  · rintro ⟨h1, h2, h3, h4, h5, h6, h7⟩
    simp [_detect_form_type, h1, h2, h3, h4, h5, h6, h7]

/-- Witness for C6: a text with banking keywords ("routing number",
"direct deposit") and no tax, medical or employment keywords classifies as
"banking", and a keyword-free text falls back to "generic_form". -/
theorem detect_form_type_priority_witness :
    _detect_form_type "enter your routing number for direct deposit" = "banking" ∧
    _detect_form_type "hello world" = "generic_form" :=
  ⟨(detect_form_type_priority "enter your routing number for direct deposit").1
      ⟨by decide, by decide, by decide, by decide⟩,
   (detect_form_type_priority "hello world").2
      ⟨by decide, by decide, by decide, by decide, by decide, by decide, by decide⟩⟩

/-- Claim C10: because the lowest-priority "application" alternation
matches the bare substrings "application", "apply", "form" or "request",
any document text containing one of them (case-insensitively) is never
classified as the generic fallback "generic_form". -/
theorem application_words_block_generic (t : String)
    (h : hasSub (lowerL t.data) (String.data "application") = true ∨
         hasSub (lowerL t.data) (String.data "apply") = true ∨
         hasSub (lowerL t.data) (String.data "form") = true ∨
         hasSub (lowerL t.data) (String.data "request") = true) :
    _detect_form_type t ≠ "generic_form" := by
  have happ : searchAny applicationAlts (lowerL t.data) = true := by
    rcases h with h | h | h | h
    · exact searchAny_of_hasSub _ _ _ (by decide) (by decide) h
    · exact searchAny_of_hasSub _ _ _ (by decide) (by decide) h
    · exact searchAny_of_hasSub _ _ _ (by decide) (by decide) h
    · exact searchAny_of_hasSub _ _ _ (by decide) (by decide) h
  simp only [_detect_form_type, happ]
  split_ifs <;> decide

/-- Witness for C10: a text containing the word "form" is not classified
as "generic_form". -/
theorem application_words_block_generic_witness :
    _detect_form_type "please complete this form" ≠ "generic_form" :=
  application_words_block_generic "please complete this form"
    (Or.inr (Or.inr (Or.inl (by decide))))

end FormHelper

namespace FormHelper

/-- Claim C7: for every page, `_merge_fields` produces at most as many
fields on that page as there are text candidates on that page plus visual
boxes of that page that do not spatially correspond to any text candidate.
Spatial correspondence is any predicate that at least requires the text
candidate to sit on the box's page (the spec's line-height proximity test
is one such `prox`), so the bound holds for every such notion. -/
theorem merge_field_count_bound
    (prox : MergedField → Nat × Nat × Nat × Nat × Nat → Bool) (pg : Nat)
    (tfs : List MergedField) (boxes : List (Nat × Nat × Nat × Nat × Nat)) :
    ((_merge_fields tfs boxes).countP (fun f => f.page == pg)) ≤
      (tfs.countP (fun f => f.page == pg)) +
      (boxes.countP (fun b => b.1 + 1 == pg &&
        !(tfs.any (fun tc => tc.page == b.1 + 1 && prox tc b)))) := by
  unfold _merge_fields
  rw [List.countP_append]
  have key : ∀ bs : List (Nat × Nat × Nat × Nat × Nat),
      ((bs.filterMap (fun b =>
          if tfs.any (fun f => f.page == b.1 + 1) then none
          else some (unlabeledField b.1 b.2.1 b.2.2.1 b.2.2.2.1 b.2.2.2.2))).countP
        (fun f => f.page == pg)) ≤
      bs.countP (fun b => b.1 + 1 == pg &&
        !(tfs.any (fun tc => tc.page == b.1 + 1 && prox tc b))) := by
    intro bs
    induction bs with
    | nil => simp
    | cons b bs ih =>
      rw [List.countP_cons]
      cases hb : tfs.any (fun f => f.page == b.1 + 1) with
      | true =>
        simp only [List.filterMap_cons, hb, if_true]
        exact le_trans ih (Nat.le_add_right _ _)
      | false =>
        have hnone : tfs.any (fun tc => tc.page == b.1 + 1 && prox tc b) = false := by
          rw [List.any_eq_false] at hb ⊢
          intro tc htc
          have := hb tc htc
          simp only [Bool.and_eq_true, not_and]
          intro hpage
          exact absurd hpage this
        simp only [List.filterMap_cons, hb, if_false, Bool.false_eq_true,
          List.countP_cons, hnone, Bool.not_false, Bool.and_true]
        have hpg : ((unlabeledField b.1 b.2.1 b.2.2.1 b.2.2.2.1 b.2.2.2.2).page == pg) =
            (b.1 + 1 == pg) := rfl
        rw [hpg]
        omega
  exact Nat.add_le_add_left (key boxes) _

/-- Scenario A page text. -/
def scenarioAText : String := "Full Name: John Smith\nEmail Address: john@example.com"

/-- Counterexample to claim C2: the pipeline on the Scenario A text
produces three fields, not exactly two — the `address` rule's bare
`address` alternative also matches inside "Email Address". -/
theorem scenario_a_counterexample :
    (_merge_fields (_identify_fields [scenarioAText]) []).length = 3 ∧
    (_merge_fields (_identify_fields [scenarioAText]) []).map MergedField.name =
      ["name", "email", "address"] := by
  constructor
  · decide
  · decide

/-- Amended claim C2: the Scenario A text yields exactly three fields —
the claimed "name" and "email" fields (confidence 0.7) plus an "address"
field with label "Address" and value "john@example.com" produced by the
address rule matching the substring "Address" of "Email Address". -/
theorem scenario_a_fields :
    _merge_fields (_identify_fields [scenarioAText]) [] =
      [{ name := "name", label := "Full Name", type := "text",
         value := some "John Smith", page := 1, position := FieldPos.offset 0,
         dimensions := none, required := false, confidence := 7 / 10 },
       { name := "email", label := "Email Address", type := "email",
         value := some "john@example.com", page := 1, position := FieldPos.offset 22,
         dimensions := none, required := false, confidence := 7 / 10 },
       { name := "address", label := "Address", type := "text",
         value := some "john@example.com", page := 1, position := FieldPos.offset 28,
         dimensions := none, required := false, confidence := 7 / 10 }] := rfl

/-- Claim C4 (code evaluation at the failing input): on the page text
"Signature *" the signature rule's label group captures only "Signature";
the asterisk lands in the value group, so the `required` flag — computed
from the label only — is `false`, not `true` as Scenario B of the spec
demands. -/
theorem signature_star_not_required :
    _identify_fields ["Signature *"] =
      [{ name := "signature", label := "Signature", type := "text",
         value := some "*", page := 1, position := FieldPos.offset 0,
         dimensions := none, required := false, confidence := 7 / 10 }] := rfl

/-- Counterexample to claim C5: the merger labels the box-only field
"Unlabeled Field (1)", not "Unlabeled Field (page 1)". -/
theorem scenario_c_label_counterexample :
    (_merge_fields [] [(0, 10, 200, 120, 30)]).map MergedField.label =
      ["Unlabeled Field (1)"] ∧
    ("Unlabeled Field (1)" : String) ≠ "Unlabeled Field (page 1)" := by
  constructor
  · decide
  · decide

/-- Amended claim C5: one accepted 120 by 30 quadrilateral on page 1 with
no text candidates passes the visual filter and yields exactly one merged
field with dimensions (120, 30), confidence 0.5 and label
"Unlabeled Field (1)". -/
theorem scenario_c_amended :
    _detect_field_boxes [⟨4, 10, 200, 120, 30⟩] = [(10, 200, 120, 30)] ∧
    _merge_fields [] [(0, 10, 200, 120, 30)] =
      [{ name := "field_0_10_200", label := "Unlabeled Field (1)", type := "text",
         value := none, page := 1, position := FieldPos.coord 10 200,
         dimensions := some (120, 30), required := false, confidence := 1 / 2 }] := by
  constructor
  · decide
  · rfl

/-- A text-derived field sitting at text offset 0 on page 1. -/
def nearbyTextField : MergedField :=
  { name := "name", label := "Full Name", type := "text", value := some "John Smith",
    page := 1, position := FieldPos.offset 0, dimensions := none, required := false,
    confidence := 7 / 10 }

/-- Claim C1 (code evaluation at the failing input): a visual box at
y = 700 (vertical center 715, nowhere near the line implied by the
offset-0 text candidate) is silently dropped because `_merge_fields`
treats the mere existence of a same-page text field as correspondence; no
unlabeled field is appended, contrary to the per-candidate line-height
proximity test the claim describes. -/
theorem merge_same_page_shortcut :
    _merge_fields [nearbyTextField] [(0, 50, 700, 120, 30)] = [nearbyTextField] := rfl

/-- A page whose external stages all succeed. -/
def okPage : PageInput :=
  ⟨Except.ok (), Except.ok "Full Name: John", Except.ok []⟩

/-- A page whose OCR stage raises. -/
def ocrFailPage : PageInput :=
  ⟨Except.ok (), Except.error "tesseract failed", Except.ok []⟩

/-- Counterexample to claim C3: an OCR failure on the second page is not
recovered locally — `extract_fields` raises a document-level error instead
of returning a result for the remaining pages, because only
`_detect_field_boxes` has a per-page handler. -/
theorem page_ocr_failure_aborts_document :
    extract_fields [okPage, ocrFailPage] =
      Except.error "PDF processing error: tesseract failed" := rfl

/-- Amended claim C3: only a failure inside visual box detection is
recovered locally — such a page contributes zero visual candidates
(`pageBoxes p = []`) and, as long as preprocessing and OCR succeed on
every page, the extraction still returns a result whose `page_count`
equals the number of rasterized pages.  A preprocessing or OCR failure on
any single page aborts the whole document. -/
theorem detect_failure_recovered (pages : List PageInput)
    (h : ∀ p ∈ pages, exIsOk p.enhance = true ∧ exIsOk p.ocr = true) :
    (∃ r, extract_fields pages = Except.ok r ∧ r.page_count = pages.length) ∧
    (∀ p : PageInput, exIsOk p.contours = false → pageBoxes p = []) := by
  constructor
  · have key : ∀ (i : Nat) (ps : List PageInput),
        (∀ p ∈ ps, exIsOk p.enhance = true ∧ exIsOk p.ocr = true) →
        ∃ ts bs, collectPages i ps = Except.ok (ts, bs) := by
      intro i ps
      induction ps generalizing i with
      | nil => intro _; exact ⟨[], [], rfl⟩
      | cons p ps ih =>
        intro hh
        obtain ⟨he, ho⟩ := hh p (List.mem_cons_self _ _)
        cases hE : p.enhance with
        | error e => rw [hE] at he; simp [exIsOk] at he
        | ok u =>
          cases hO : p.ocr with
          | error e => rw [hO] at ho; simp [exIsOk] at ho
          | ok t =>
            obtain ⟨ts, bs, hc⟩ := ih (i + 1) (fun q hq => hh q (List.mem_cons_of_mem _ hq))
            refine ⟨t :: ts,
              (pageBoxes p).map (fun b => (i, b.1, b.2.1, b.2.2.1, b.2.2.2)) ++ bs, ?_⟩
            simp [collectPages, hE, hO, hc]
    obtain ⟨ts, bs, hc⟩ := key 0 pages h
    refine ⟨{ form_type := _detect_form_type (String.intercalate "\n" ts)
              fields := _merge_fields (_identify_fields ts) bs
              page_count := pages.length
              text_content := ts
              confidence := 7 / 10 }, ?_, rfl⟩
    simp [extract_fields, hc]
  · intro p hp
    cases hC : p.contours with
    | error e => simp [pageBoxes, hC]
    | ok cs => rw [hC] at hp; simp [exIsOk] at hp

/-- A page whose contour detection raises but whose preprocessing and OCR
succeed. -/
def detectFailPage : PageInput :=
  ⟨Except.ok (), Except.ok "hello", Except.error "cv2 failure"⟩

/-- Witness for the amended C3: a one-page document whose visual detection
fails still extracts successfully with `page_count = 1`, and its failing
detection contributes zero boxes. -/
theorem detect_failure_recovered_witness :
    (∃ r, extract_fields [detectFailPage] = Except.ok r ∧
       r.page_count = [detectFailPage].length) ∧
    (∀ p : PageInput, exIsOk p.contours = false → pageBoxes p = []) :=
  detect_failure_recovered [detectFailPage] (by decide)

end FormHelper
